import Mathlib

/-!
Verification of the per-frame annotation and trajectory-management pipeline of
`video_tracker.py` (class `VideoTracker` plus `main`), as a shallow embedding.

Modelling conventions:
* Pixel coordinates and track ids are `Int` (the code applies Python `int` to
  the box coordinates before any use); class ids are `Nat` (COCO ids).
* Confidences are `ℚ` (the Python float only flows into the label text).
* A frame buffer is modelled symbolically as the list of drawing commands that
  have been applied to it (`FrameData`); the external `cv2` drawing primitives
  append one command each.  Pixel-for-pixel equality of frames is equality of
  these command lists over the same underlying image.
* Mutable `numpy` buffers live in an explicit `Store` (handle → contents), so
  that "which buffer did a drawing call mutate" is a provable statement.
* Python dicts used only through per-key get/set (`track_history`,
  `detection_stats`, the class catalog) are association lists.
* The external detector and tracker (`self.model`, `self.tracker`) are
  parameters of the pipeline functions: the detector is a function from a
  frame to raw detections, the tracker a state-transformer returning the
  detections augmented with track ids, its state threaded through the run.
-/

/-- A pixel point `(x, y)`. -/
abbrev Point := Int × Int

/-- A BGR colour triple as used by the `colors` table. -/
abbrev Color := Nat × Nat × Nat

/-- A raw detection, as unpacked from `detections.xyxy`, `detections.class_id`,
`detections.confidence` (box coordinates after Python `int`). -/
structure Detection where
  x1 : Int
  y1 : Int
  x2 : Int
  y2 : Int
  classId : Nat
  confidence : ℚ
deriving DecidableEq, Repr

/-- A detection after `self.tracker.update_with_detections`, additionally
carrying `detections.tracker_id`. -/
structure TrackedDetection where
  x1 : Int
  y1 : Int
  x2 : Int
  y2 : Int
  classId : Nat
  confidence : ℚ
  trackId : Int
deriving DecidableEq, Repr

/-- `self.target_classes`: the class catalog of `VideoTracker.__init__`
(lines 41–47), in dict insertion order. -/
def targetClasses : List (Nat × String) :=
  [(0, "person"), (2, "car"), (3, "motorcycle"), (5, "bus"), (7, "truck")]

/-- `self.colors` of `VideoTracker.__init__` (lines 50–56). -/
def colors : List (String × Color) :=
  [("person", (0, 255, 0)), ("car", (255, 0, 0)), ("motorcycle", (0, 0, 255)),
   ("bus", (255, 255, 0)), ("truck", (255, 0, 255))]

/-- `list(self.target_classes.keys())` as used on line 119. -/
def catalogKeys : List Nat := targetClasses.map Prod.fst

/-- Association-list lookup (Python `dict.__getitem__` guarded by `in`). -/
def lookupAssoc {κ α : Type} [DecidableEq κ] : List (κ × α) → κ → Option α
  | [], _ => none
  | (k', v) :: t, k => if k' = k then some v else lookupAssoc t k

/-- Association-list read with default (Python `dict.get(k, d)` /
read of a key known to be present). -/
def getAssoc {κ α : Type} [DecidableEq κ] (d : α) : List (κ × α) → κ → α
  | [], _ => d
  | (k', v) :: t, k => if k' = k then v else getAssoc d t k

/-- Association-list write (Python `dict.__setitem__`). -/
def setAssoc {κ α : Type} [DecidableEq κ] : List (κ × α) → κ → α → List (κ × α)
  | [], k, v => [(k, v)]
  | (k', v') :: t, k, v => if k' = k then (k', v) :: t else (k', v') :: setAssoc t k v

theorem getAssoc_setAssoc_self {κ α : Type} [DecidableEq κ] (d : α)
    (l : List (κ × α)) (k : κ) (v : α) : getAssoc d (setAssoc l k v) k = v := by
  induction l with
  | nil => simp [setAssoc, getAssoc]
  | cons hd t ih =>
    obtain ⟨k', v'⟩ := hd
    by_cases hk : k' = k
    · simp [setAssoc, getAssoc, hk]
    · simp [setAssoc, getAssoc, hk, ih]

theorem getAssoc_setAssoc_ne {κ α : Type} [DecidableEq κ] (d : α)
    (l : List (κ × α)) (k j : κ) (v : α) (h : j ≠ k) :
    getAssoc d (setAssoc l k v) j = getAssoc d l j := by
  induction l with
  | nil =>
    simp only [setAssoc, getAssoc]
    rw [if_neg (fun hh : k = j => h hh.symm)]
  | cons hd t ih =>
    obtain ⟨k', v'⟩ := hd
    simp only [setAssoc]
    by_cases hk : k' = k
    · rw [if_pos hk]
      subst hk
      simp only [getAssoc]
      rw [if_neg (fun hh : k' = j => h hh.symm), if_neg (fun hh : k' = j => h hh.symm)]
    · rw [if_neg hk]
      simp only [getAssoc]
      by_cases hj : k' = j
      · rw [if_pos hj, if_pos hj]
      · rw [if_neg hj, if_neg hj, ih]

/-- `track_history` of `process_video` (line 97): track id → ordered centers. -/
abbrev History := List (Int × List Point)

/-- The trajectory-store update inlined at lines 202–209 of
`draw_annotations`: append the new center, then keep only the last 30 points
(`track_history[track_id] = track_history[track_id][-30:]`). -/
def record (hist : List Point) (p : Point) : List Point :=
  let h := hist ++ [p]
  if h.length > 30 then h.drop (h.length - 30) else h

/-- The last `n` elements of a list (Python `l[-n:]` for `n > 0`). -/
def takeLast {α : Type} (n : Nat) (l : List α) : List α := l.drop (l.length - n)

theorem takeLast_of_le {α : Type} {n : Nat} {l : List α} (h : l.length ≤ n) :
    takeLast n l = l := by
  simp [takeLast, Nat.sub_eq_zero_of_le h]

theorem length_takeLast {α : Type} (n : Nat) (l : List α) :
    (takeLast n l).length = min n l.length := by
  simp [takeLast]
  omega

theorem takeLast_append {α : Type} (n : Nat) (a b : List α) :
    takeLast n (a ++ b) = takeLast (n - b.length) a ++ takeLast n b := by
  unfold takeLast
  rw [List.drop_append_eq_append_drop]
  congr 1
  · by_cases hbn : b.length ≤ n
    · congr 1
      simp
      omega
    · have h1 : a.length ≤ (a ++ b).length - n := by simp; omega
      have h2 : a.length ≤ a.length - (n - b.length) := by omega
      rw [List.drop_eq_nil_of_le h1, List.drop_eq_nil_of_le h2]
  · congr 1
    simp
    omega

theorem takeLast_takeLast {α : Type} (m n : Nat) (l : List α) (h : m ≤ n) :
    takeLast m (takeLast n l) = takeLast m l := by
  unfold takeLast
  rw [List.drop_drop]
  congr 1
  simp
  omega

theorem record_eq_takeLast (hist : List Point) (p : Point) :
    record hist p = takeLast 30 (hist ++ [p]) := by
  by_cases h : (hist ++ [p]).length > 30
  · simp only [record, takeLast, h, if_true]
  · simp only [record, h, if_false]
    exact (takeLast_of_le (by omega)).symm

theorem length_record_le (hist : List Point) (p : Point) :
    (record hist p).length ≤ 30 := by
  rw [record_eq_takeLast, length_takeLast]
  omega

theorem foldl_record (ps : List Point) :
    ∀ hist : List Point, hist.length ≤ 30 →
      List.foldl record hist ps = takeLast 30 (hist ++ ps) := by
  induction ps with
  | nil =>
    intro hist h
    simpa using (takeLast_of_le h).symm
  | cons p ps ih =>
    intro hist h
    rw [List.foldl_cons, ih (record hist p) (length_record_le hist p),
      record_eq_takeLast, takeLast_append,
      takeLast_takeLast _ 30 _ (Nat.sub_le 30 ps.length), ← takeLast_append]
    simp

/-- C1: iterating the trajectory update of `draw_annotations`
(lines 201–209) over any sequence of recorded centers for one track id,
starting from the empty trajectory of first sighting, leaves exactly the last
`min n 30` recorded points, in insertion order, so the stored trajectory never
exceeds 30 points after any call.  Since this holds for every sequence, it in
particular holds after each call (apply it to each prefix of the calls). -/
theorem trajectory_window_c1 (ps : List Point) :
    (List.foldl record [] ps).length ≤ 30 ∧
    (List.foldl record [] ps).length = min ps.length 30 ∧
    List.foldl record [] ps = takeLast 30 ps := by
  have h := foldl_record ps [] (by simp)
  simp only [List.nil_append] at h
  refine ⟨?_, ?_, h⟩
  · rw [h, length_takeLast]; omega
  · rw [h, length_takeLast]; omega

/-- A symbolic drawing operation, one per `cv2` primitive call in
`draw_annotations`. -/
inductive DrawCmd : Type where
  | rect (p1 p2 : Point) (c : Color) (thickness : Int)
  | text (s : String) (org : Point) (scale : ℚ) (c : Color) (thickness : Int)
  | polyline (pts : List Point) (closed : Bool) (c : Color) (thickness : Int)
deriving DecidableEq, Repr

/-- Contents of one frame buffer: the drawing commands applied to it so far
(over its underlying image).  Two buffers with the same command history over
the same image are pixel-for-pixel equal. -/
abbrev FrameData := List DrawCmd

/-- A heap of frame buffers: handle → contents, plus the next fresh handle.
This makes "which buffer did a call mutate" explicit. -/
structure Store where
  bufs : List (Nat × FrameData)
  next : Nat
deriving DecidableEq, Repr

def Store.read (st : Store) (i : Nat) : FrameData := getAssoc [] st.bufs i

def Store.write (st : Store) (i : Nat) (f : FrameData) : Store :=
  ⟨setAssoc st.bufs i f, st.next⟩

/-- Allocate a fresh buffer holding `f` (`numpy` copy / `cap.read` result). -/
def Store.alloc (st : Store) (f : FrameData) : Store × Nat :=
  (⟨setAssoc st.bufs st.next f, st.next + 1⟩, st.next)

def emptyStore : Store := ⟨[], 0⟩

theorem read_write_self (st : Store) (i : Nat) (f : FrameData) :
    (st.write i f).read i = f := by
  simp [Store.read, Store.write, getAssoc_setAssoc_self]

theorem read_write_ne (st : Store) (i j : Nat) (f : FrameData) (h : j ≠ i) :
    (st.write i f).read j = st.read j := by
  simp [Store.read, Store.write, getAssoc_setAssoc_ne _ _ _ _ _ h]

/-- `cv2.rectangle(buf, p1, p2, color, thickness)`. -/
def cvRectangle (st : Store) (i : Nat) (p1 p2 : Point) (c : Color)
    (thickness : Int) : Store :=
  st.write i (st.read i ++ [DrawCmd.rect p1 p2 c thickness])

/-- `cv2.putText(buf, s, org, font, scale, color, thickness)`. -/
def cvPutText (st : Store) (i : Nat) (s : String) (org : Point) (scale : ℚ)
    (c : Color) (thickness : Int) : Store :=
  st.write i (st.read i ++ [DrawCmd.text s org scale c thickness])

/-- `cv2.polylines(buf, [pts], closed, color, thickness)`. -/
def cvPolylines (st : Store) (i : Nat) (pts : List Point) (closed : Bool)
    (c : Color) (thickness : Int) : Store :=
  st.write i (st.read i ++ [DrawCmd.polyline pts closed c thickness])

/-- Round to nearest integer, ties to even (IEEE / Python formatting). -/
def roundHalfEven (x : ℚ) : ℤ :=
  let f := ⌊x⌋
  let r := x - f
  if r < 1/2 then f else if 1/2 < r then f + 1 else if f % 2 = 0 then f else f + 1

/-- The Python `f"{confidence:.2f}"` formatting of a (nonnegative) confidence:
two decimal digits, round half to even. -/
def fmt2 (q : ℚ) : String :=
  let cents := roundHalfEven (q * 100)
  let ip := Int.fdiv cents 100
  let fp := (cents - 100 * ip).toNat
  toString ip ++ "." ++ (if fp < 10 then "0" else "") ++ toString fp

/-- The body of the per-detection loop of `draw_annotations`
(lines 180–214), acting on the annotated buffer `annId` and the running
`track_history`; the text-metric function `cv2.getTextSize` is an external
parameter returning `(width, height)`. -/
def drawOne (textSize : String → Int × Int) (annId : Nat)
    (acc : Store × History) (d : TrackedDetection) : Store × History :=
  match lookupAssoc targetClasses d.classId with
  | none => acc
  | some className =>
    let color := (lookupAssoc colors className).getD (255, 255, 255)
    let st1 := cvRectangle acc.1 annId (d.x1, d.y1) (d.x2, d.y2) color 2
    let label := className ++ " #" ++ toString d.trackId ++ " (" ++ fmt2 d.confidence ++ ")"
    let ls := textSize label
    let st2 := cvRectangle st1 annId (d.x1, d.y1 - ls.2 - 10) (d.x1 + ls.1, d.y1) color (-1)
    let st3 := cvPutText st2 annId label (d.x1, d.y1 - 5) (1/2) (255, 255, 255) 2
    let center : Point := (Int.fdiv (d.x1 + d.x2) 2, Int.fdiv (d.y1 + d.y2) 2)
    let traj := record (getAssoc [] acc.2 d.trackId) center
    let h2 := setAssoc acc.2 d.trackId traj
    let st4 := if traj.length > 1 then cvPolylines st3 annId traj false color 2 else st3
    (st4, h2)

/-- `VideoTracker.draw_annotations` (lines 162–216): copy the input frame,
return it unchanged when there are no detections, otherwise run the
per-detection loop on the copy, and return (store, handle of the annotated
frame, updated trajectory history). -/
def drawAnnotations (textSize : String → Int × Int) (st : Store) (frameId : Nat)
    (dets : List TrackedDetection) (hist : History) : Store × Nat × History :=
  let a := st.alloc (st.read frameId)
  if dets.length = 0 then (a.1, a.2, hist)
  else
    let r := dets.foldl (drawOne textSize a.2) (a.1, hist)
    (r.1, a.2, r.2)

theorem drawOne_read_ne (textSize : String → Int × Int) (annId : Nat)
    (acc : Store × History) (d : TrackedDetection) (j : Nat) (h : j ≠ annId) :
    (drawOne textSize annId acc d).1.read j = acc.1.read j := by
  unfold drawOne
  cases lookupAssoc targetClasses d.classId with
  | none => rfl
  | some className =>
    simp only
    split <;>
      simp [cvRectangle, cvPutText, cvPolylines, read_write_ne _ _ _ _ h]

theorem foldl_drawOne_read_ne (textSize : String → Int × Int) (annId : Nat)
    (dets : List TrackedDetection) (j : Nat) (h : j ≠ annId) :
    ∀ acc : Store × History,
      (dets.foldl (drawOne textSize annId) acc).1.read j = acc.1.read j := by
  induction dets with
  | nil => intro acc; rfl
  | cons d dets ih =>
    intro acc
    rw [List.foldl_cons, ih, drawOne_read_ne _ _ _ _ _ h]

/-- C9: `draw_annotations` draws every rectangle, label and polyline on the
fresh copy allocated at line 174, so the caller's frame buffer (any valid
handle of the store) holds identical contents before and after the call. -/
theorem annotator_preserves_input_frame_c9 (textSize : String → Int × Int)
    (st : Store) (frameId : Nat) (dets : List TrackedDetection) (hist : History)
    (h : frameId < st.next) :
    (drawAnnotations textSize st frameId dets hist).1.read frameId
      = st.read frameId := by
  have hne : frameId ≠ st.next := Nat.ne_of_lt h
  unfold drawAnnotations
  split
  · simp only [Store.alloc, Store.read]
    exact getAssoc_setAssoc_ne _ _ _ _ _ hne
  · simp only [Store.alloc]
    rw [foldl_drawOne_read_ne _ _ _ _ hne]
    simp only [Store.read]
    exact getAssoc_setAssoc_ne _ _ _ _ _ hne

/-- C5: called with zero detections, `draw_annotations` returns (a copy
whose contents equal) the input frame unchanged, and leaves the trajectory
history untouched (lines 174–177 return before any drawing or recording). -/
theorem annotator_empty_detections_c5 (textSize : String → Int × Int)
    (st : Store) (frameId : Nat) (hist : History) :
    (drawAnnotations textSize st frameId [] hist).1.read
        (drawAnnotations textSize st frameId [] hist).2.1
      = st.read frameId ∧
    (drawAnnotations textSize st frameId [] hist).2.2 = hist := by
  constructor
  · simp [drawAnnotations, Store.alloc, Store.read, getAssoc_setAssoc_self]
  · simp [drawAnnotations]

/-- `np.isin(detections.class_id, list(self.target_classes.keys()))`
(line 119): the elementwise membership mask. -/
def isinMask (ids : List Nat) (keys : List Nat) : List Bool :=
  ids.map (fun c => keys.contains c)

/-- Boolean-mask indexing `detections[mask]` (line 120): keep the entries
whose mask position is `true`, in order. -/
def selectByMask {α : Type} : List Bool → List α → List α
  | true :: ms, x :: xs => x :: selectByMask ms xs
  | false :: ms, _ :: xs => selectByMask ms xs
  | _, _ => []

/-- The Detection Filter of `process_video` (lines 119–120). -/
def filterDetections (dets : List Detection) : List Detection :=
  selectByMask (isinMask (dets.map Detection.classId) catalogKeys) dets

theorem selectByMask_map {α : Type} (p : α → Bool) (l : List α) :
    selectByMask (l.map p) l = l.filter p := by
  induction l with
  | nil => rfl
  | cons x xs ih =>
    cases hp : p x <;> simp [selectByMask, hp, List.filter_cons, ih]

theorem filterDetections_eq_filter (dets : List Detection) :
    filterDetections dets
      = dets.filter (fun d => catalogKeys.contains d.classId) := by
  unfold filterDetections isinMask
  rw [List.map_map]
  exact selectByMask_map _ dets

/-- C4: the Detection Filter returns exactly the subsequence of its input
whose class id is a key of the catalog `{0, 2, 3, 5, 7}`, preserving relative
order, with no effect other than its return value (it is a pure function of
its input); an empty input yields the empty list, and an input with zero
matches yields the empty list. -/
theorem detection_filter_c4 (dets : List Detection) :
    filterDetections dets
        = dets.filter (fun d => catalogKeys.contains d.classId) ∧
    List.Sublist (filterDetections dets) dets ∧
    (∀ d, d ∈ filterDetections dets → catalogKeys.contains d.classId = true) ∧
    (∀ d, d ∈ dets → catalogKeys.contains d.classId = true →
      d ∈ filterDetections dets) ∧
    filterDetections [] = [] ∧
    ((∀ d, d ∈ dets → catalogKeys.contains d.classId = false) →
      filterDetections dets = []) := by
  refine ⟨filterDetections_eq_filter dets, ?_, ?_, ?_, rfl, ?_⟩
  · rw [filterDetections_eq_filter]
    exact List.filter_sublist dets
  · intro d hd
    rw [filterDetections_eq_filter] at hd
    exact (List.mem_filter.mp hd).2
  · intro d hd hc
    rw [filterDetections_eq_filter]
    exact List.mem_filter.mpr ⟨hd, hc⟩
  · intro hall
    rw [filterDetections_eq_filter, List.filter_eq_nil_iff]
    intro d hd
    simpa using hall d hd

/-- A catalog detection and a non-catalog one, for concrete checks. -/
def dCar : Detection :=
  { x1 := 0, y1 := 0, x2 := 10, y2 := 10, classId := 2, confidence := 1/2 }

def dOther : Detection :=
  { x1 := 1, y1 := 1, x2 := 5, y2 := 5, classId := 99, confidence := 1/2 }

theorem detection_filter_c4_witness :
    dCar ∈ filterDetections [dCar, dOther] ∧ filterDetections [dOther] = [] :=
  ⟨(detection_filter_c4 [dCar, dOther]).2.2.2.1 dCar (by simp) (by decide),
   (detection_filter_c4 [dOther]).2.2.2.2.2 (fun d hd => by
      simp only [List.mem_singleton] at hd
      subst hd
      decide)⟩

/-- C8: the Detection Filter is idempotent — filtering an already-filtered
detection list returns it unchanged. -/
theorem detection_filter_idempotent_c8 (dets : List Detection) :
    filterDetections (filterDetections dets) = filterDetections dets := by
  rw [filterDetections_eq_filter, filterDetections_eq_filter,
    List.filter_filter]
  simp

/-- `detection_stats` (line 96): class name → cumulative count. -/
abbrev Stats := List (String × Nat)

/-- `{class_name: 0 for class_name in self.target_classes.values()}`. -/
def zeroStats : Stats := targetClasses.map (fun p => (p.2, 0))

/-- `detection_stats[name] += 1`. -/
def bumpStat (s : Stats) (name : String) : Stats :=
  s.map (fun q => if q.1 = name then (q.1, q.2 + 1) else q)

/-- The statistics update of `process_video` (lines 129–131): for every
tracked detection with a catalog class id, bump that class's counter. -/
def updateStats (stats : Stats) (tdets : List TrackedDetection) : Stats :=
  tdets.foldl
    (fun s d =>
      match lookupAssoc targetClasses d.classId with
      | some n => bumpStat s n
      | none => s)
    stats

/-- The whole per-video mutable state of one `process_video` call, plus the
tracker state of the `VideoTracker` instance (`self.tracker`). -/
structure LoopState (TState : Type) where
  ts : TState
  st : Store
  hist : History
  stats : Stats
  sink : List FrameData

/-- One iteration of the `while True` loop of `process_video`
(lines 105–147) on a successfully read frame `f`: allocate the frame buffer
(`cap.read`), run the external detector, filter to catalog classes
(lines 119–120), update the external tracker (line 123), annotate
(line 126), accumulate statistics (lines 129–131), and write the annotated
buffer to the output sink (line 134). -/
def frameStep {TState : Type}
    (tracker : TState → List Detection → TState × List TrackedDetection)
    (textSize : String → Int × Int) (detector : FrameData → List Detection)
    (s : LoopState TState) (f : FrameData) : LoopState TState :=
  let a := s.st.alloc f
  let dets := filterDetections (detector f)
  let tr := tracker s.ts dets
  let da := drawAnnotations textSize a.1 a.2 tr.2 s.hist
  { ts := tr.1, st := da.1, hist := da.2.2,
    stats := updateStats s.stats tr.2,
    sink := s.sink ++ [da.1.read da.2.1] }

/-- The frame loop of `process_video` on the list of readable frames, started
— as lines 95–97 do at each call — from an empty store, empty trajectory
history and zeroed statistics, threading the instance's tracker state. -/
def processVideoFull {TState : Type}
    (tracker : TState → List Detection → TState × List TrackedDetection)
    (textSize : String → Int × Int) (detector : FrameData → List Detection)
    (ts : TState) (frames : List FrameData) : LoopState TState :=
  frames.foldl (frameStep tracker textSize detector)
    { ts := ts, st := emptyStore, hist := [], stats := zeroStats, sink := [] }

/-- The multi-video loop of `main` (lines 241–248) on videos that exist:
one `VideoTracker` instance, `self.tracker` threaded across calls, per-video
results collected. -/
def runVideos {TState : Type}
    (tracker : TState → List Detection → TState × List TrackedDetection)
    (textSize : String → Int × Int) (detector : FrameData → List Detection) :
    TState → List (List FrameData) → TState × List (Stats × History × List FrameData)
  | ts, [] => (ts, [])
  | ts, v :: vs =>
    let r := processVideoFull tracker textSize detector ts v
    let rest := runVideos tracker textSize detector r.ts vs
    (rest.1, (r.stats, r.hist, r.sink) :: rest.2)

theorem filterDetections_filter_catalog (l : List Detection) :
    filterDetections (l.filter (fun d => catalogKeys.contains d.classId))
      = filterDetections l := by
  rw [filterDetections_eq_filter, filterDetections_eq_filter,
    List.filter_filter]
  simp

theorem frameStep_drop_non_catalog {TState : Type}
    (tracker : TState → List Detection → TState × List TrackedDetection)
    (textSize : String → Int × Int) (detector : FrameData → List Detection)
    (s : LoopState TState) (f : FrameData) :
    frameStep tracker textSize
        (fun g => (detector g).filter (fun d => catalogKeys.contains d.classId))
        s f
      = frameStep tracker textSize detector s f := by
  unfold frameStep
  rw [filterDetections_filter_catalog]

/-- C7: the per-frame pipeline of `process_video` behaves identically whether
or not the external detector's raw output contains detections whose class id
is outside the catalog `{0, 2, 3, 5, 7}` (such as class id 99): the run on the
detector with all non-catalog detections removed is equal, state for state —
same statistics, same trajectory history, same written frames.  Hence a
detection of class 99 present in every frame never contributes to any
statistics counter and never causes a point to be appended to any
trajectory. -/
theorem non_catalog_detections_invisible_c7 {TState : Type}
    (tracker : TState → List Detection → TState × List TrackedDetection)
    (textSize : String → Int × Int) (detector : FrameData → List Detection)
    (ts : TState) (frames : List FrameData) :
    processVideoFull tracker textSize
        (fun g => (detector g).filter (fun d => catalogKeys.contains d.classId))
        ts frames
      = processVideoFull tracker textSize detector ts frames := by
  unfold processVideoFull
  suffices h : ∀ s0 : LoopState TState,
      List.foldl
          (frameStep tracker textSize
            (fun g => (detector g).filter (fun d => catalogKeys.contains d.classId)))
          s0 frames
        = List.foldl (frameStep tracker textSize detector) s0 frames by
    exact h _
  intro s0
  induction frames generalizing s0 with
  | nil => rfl
  | cons f fs ih =>
    rw [List.foldl_cons, List.foldl_cons,
      frameStep_drop_non_catalog tracker textSize detector s0 f]
    exact ih _

/-- A person-class detection for concrete runs. -/
def dPerson : Detection :=
  { x1 := 0, y1 := 0, x2 := 10, y2 := 10, classId := 0, confidence := 1/2 }

/-- A concrete instance of the external tracker interface: assigns fresh
increasing track ids, its state the next free id (the observable part of
ByteTrack's cross-frame id assignment). -/
def counterTracker (n : Nat) (dets : List Detection) :
    Nat × List TrackedDetection :=
  (n + dets.length,
   dets.enum.map (fun p =>
     { x1 := p.2.x1, y1 := p.2.y1, x2 := p.2.x2, y2 := p.2.y2,
       classId := p.2.classId, confidence := p.2.confidence,
       trackId := ((n + p.1 : Nat) : Int) }))

/-- A concrete detector seeing one person in every frame. -/
def cDetector : FrameData → List Detection := fun _ => [dPerson]

/-- A concrete text metric for `cv2.getTextSize`. -/
def cTextSize : String → Int × Int := fun _ => (40, 10)

/-- A one-frame video. -/
def cVideo : List FrameData := [[]]

/-- Two videos processed by one `VideoTracker` instance. -/
def doubleRun : Nat × List (Stats × History × List FrameData) :=
  runVideos counterTracker cTextSize cDetector 0 [cVideo, cVideo]

/-- The second video processed alone by a fresh instance. -/
def singleRun : Nat × List (Stats × History × List FrameData) :=
  runVideos counterTracker cTextSize cDetector 0 [cVideo]

/-- C10: across multiple `process_video` calls on one `VideoTracker`
instance, `detection_stats` and `track_history` are created fresh at the
start of each call (lines 95–97), while `self.tracker`, constructed once in
`__init__` (line 38), is threaded un-reset from one video into the next.
First conjunct: in any two-video run the second video starts from the tracker
state left by the first, and each video's statistics/history are those of a
`processVideoFull` call, which initialises them to `zeroStats` and `[]`.
Remaining conjuncts, on a concrete id-assigning tracker: both videos report
fresh statistics (`person: 1`, not cumulative) and a fresh one-point
trajectory, yet the second video's trajectory is keyed by track id 1 — the
persisted tracker state — where a fresh instance would key it by 0. -/
theorem tracker_state_persists_c10 :
    (∀ (TState : Type)
       (tracker : TState → List Detection → TState × List TrackedDetection)
       (textSize : String → Int × Int) (detector : FrameData → List Detection)
       (ts : TState) (v1 v2 : List FrameData),
       runVideos tracker textSize detector ts [v1, v2]
         = ((processVideoFull tracker textSize detector
               (processVideoFull tracker textSize detector ts v1).ts v2).ts,
            [((processVideoFull tracker textSize detector ts v1).stats,
              (processVideoFull tracker textSize detector ts v1).hist,
              (processVideoFull tracker textSize detector ts v1).sink),
             ((processVideoFull tracker textSize detector
                 (processVideoFull tracker textSize detector ts v1).ts v2).stats,
              (processVideoFull tracker textSize detector
                 (processVideoFull tracker textSize detector ts v1).ts v2).hist,
              (processVideoFull tracker textSize detector
                 (processVideoFull tracker textSize detector ts v1).ts v2).sink)])) ∧
    doubleRun.2.map Prod.fst
      = [[("person", 1), ("car", 0), ("motorcycle", 0), ("bus", 0), ("truck", 0)],
         [("person", 1), ("car", 0), ("motorcycle", 0), ("bus", 0), ("truck", 0)]] ∧
    (doubleRun.2.getD 1 ([], [], [])).2.1 = [(1, [(5, 5)])] ∧
    (singleRun.2.getD 0 ([], [], [])).2.1 = [(0, [(5, 5)])] ∧
    (doubleRun.2.getD 1 ([], [], [])).2.1 ≠ (singleRun.2.getD 0 ([], [], [])).2.1 ∧
    doubleRun.1 = 2 := by
  refine ⟨fun TState tracker textSize detector ts v1 v2 => rfl, ?_, ?_, ?_, ?_, ?_⟩
  · decide
  · decide
  · decide
  · decide
  · decide

/-- The observable environment of one video for the control-flow model of
`process_video` and `main`: whether the path exists (`os.path.exists`),
whether `cv2.VideoCapture` opens it, whether `cv2.VideoWriter` can actually
open the output for writing, how many frames are readable, and whether (and
at which frame) the detector raises during inference. -/
structure VideoEnv where
  path : String
  pathExists : Bool
  sourceOpens : Bool
  sinkOpens : Bool
  numFrames : Nat
  detectorFailsAt : Option Nat
deriving DecidableEq, Repr

/-- The human-visible messages printed by `process_video` and `main` that
identify a video, one constructor per `print` site. -/
inductive Msg : Type where
  | srcMissing (path : String)
  | srcOpenFail (path : String)
  | videoDone (path : String)
  | processFail (path : String)
  | srcMissingMain (path : String)
deriving DecidableEq, Repr

/-- The control flow of `VideoTracker.process_video` (lines 60–160).
A missing path (lines 68–70) or an unopenable source (lines 76–78) is
reported and yields `False`.  The `cv2.VideoWriter` is constructed on
line 93 but its success is never checked, which is why `sinkOpens` is not
consulted anywhere: an unopenable sink leaves the loop running with silent
no-op writes.  An exception raised by `self.model(frame)` (line 113) inside
the loop is not caught anywhere in the function and escapes it, modelled by
`Except.error` carrying the video whose processing raised.  Otherwise the
loop drains the frames and the completion message of line 154 is printed. -/
def processVideoCtl (v : VideoEnv) : Except String (Bool × List Msg) :=
  if v.pathExists = false then .ok (false, [.srcMissing v.path])
  else if v.sourceOpens = false then .ok (false, [.srcOpenFail v.path])
  else
    match v.detectorFailsAt with
    | some k =>
      if k < v.numFrames then .error v.path
      else .ok (true, [.videoDone v.path])
    | none => .ok (true, [.videoDone v.path])

/-- The multi-video loop of `main` (lines 241–248): each existing path is
handed to `process_video` (with a `processFail` message when it returns
`False`, line 246), a non-existing path only gets the warning of line 248.
`main` wraps nothing in try/except, so an exception escaping
`process_video` aborts the whole loop: the result's second component
records the video whose exception ended the run, and no later video
contributes any messages. -/
def mainLoop : List VideoEnv → List Msg × Option String
  | [] => ([], none)
  | v :: vs =>
    if v.pathExists then
      match processVideoCtl v with
      | .error ep => ([], some ep)
      | .ok (succ, msgs) =>
        let rest := mainLoop vs
        ((msgs ++ (if succ then [] else [.processFail v.path])) ++ rest.1, rest.2)
    else
      let rest := mainLoop vs
      (.srcMissingMain v.path :: rest.1, rest.2)

/-- A video whose detector raises on frame 1. -/
def envCrash : VideoEnv :=
  { path := "a.mp4", pathExists := true, sourceOpens := true, sinkOpens := true,
    numFrames := 3, detectorFailsAt := some 1 }

/-- A healthy video. -/
def envOk : VideoEnv :=
  { path := "b.mp4", pathExists := true, sourceOpens := true, sinkOpens := true,
    numFrames := 3, detectorFailsAt := none }

/-- A video whose output sink cannot be opened for writing. -/
def envBadSink : VideoEnv :=
  { path := "c.mp4", pathExists := true, sourceOpens := true, sinkOpens := false,
    numFrames := 2, detectorFailsAt := none }

/-- C2 counterexample.  First conjunct: a per-frame detector failure in
`a.mp4` escapes `process_video` uncaught and ends the whole run — `b.mp4`
is never processed and not even `a.mp4` gets a reported-failure message — so
such a failure is not "caught at the video-processing boundary" and does
abort subsequent videos.  Second conjunct: an output sink that cannot be
opened produces no failure message at all and the video is reported
successfully processed, so that failure is silently swallowed. -/
theorem error_boundary_c2_counterexample :
    mainLoop [envCrash, envOk] = ([], some "a.mp4") ∧
    processVideoCtl envBadSink = .ok (true, [.videoDone "c.mp4"]) := by
  constructor
  · rfl
  · rfl

/-- C2 as amended: only source-availability failures behave as the claim
says.  (1) A non-existing path is reported by `main` and processing
continues with the remaining videos unchanged.  (2) An existing path whose
source cannot be opened is reported (identifying the video) and processing
continues.  (3) A detector failure on a readable frame aborts the entire
remaining run with no reported-failure message.  (4) An unopenable sink is
never detected: the video completes with a success report and no failure
message. -/
theorem error_boundary_c2_amended (v : VideoEnv) (vs : List VideoEnv) :
    (v.pathExists = false →
      mainLoop (v :: vs) = (.srcMissingMain v.path :: (mainLoop vs).1, (mainLoop vs).2)) ∧
    (v.pathExists = true → v.sourceOpens = false →
      mainLoop (v :: vs)
        = (.srcOpenFail v.path :: .processFail v.path :: (mainLoop vs).1, (mainLoop vs).2)) ∧
    (∀ k, v.pathExists = true → v.sourceOpens = true → v.detectorFailsAt = some k →
      k < v.numFrames → mainLoop (v :: vs) = ([], some v.path)) ∧
    (v.pathExists = true → v.sourceOpens = true → v.sinkOpens = false →
      v.detectorFailsAt = none →
      processVideoCtl v = .ok (true, [.videoDone v.path])) := by
  refine ⟨?_, ?_, ?_, ?_⟩
  · intro h
    simp [mainLoop, h]
  · intro h1 h2
    simp [mainLoop, processVideoCtl, h1, h2]
  · intro k h1 h2 h3 h4
    simp [mainLoop, processVideoCtl, h1, h2, h3, h4]
  · intro h1 h2 h3 h4
    simp [processVideoCtl, h1, h2, h4]

/-- A non-existing video path. -/
def envMissing : VideoEnv :=
  { path := "m.mp4", pathExists := false, sourceOpens := false, sinkOpens := true,
    numFrames := 0, detectorFailsAt := none }

/-- An existing video whose source cannot be decoded. -/
def envNoOpen : VideoEnv :=
  { path := "n.mp4", pathExists := true, sourceOpens := false, sinkOpens := true,
    numFrames := 0, detectorFailsAt := none }

theorem error_boundary_c2_amended_witness :
    mainLoop [envMissing] = ([.srcMissingMain "m.mp4"], none) ∧
    mainLoop [envNoOpen] = ([.srcOpenFail "n.mp4", .processFail "n.mp4"], none) ∧
    mainLoop [envCrash, envOk] = ([], some "a.mp4") ∧
    processVideoCtl envBadSink = .ok (true, [.videoDone "c.mp4"]) := by
  refine ⟨?_, ?_, ?_, ?_⟩
  · exact (error_boundary_c2_amended envMissing []).1 rfl
  · exact (error_boundary_c2_amended envNoOpen []).2.1 rfl rfl
  · exact (error_boundary_c2_amended envCrash [envOk]).2.2.1 1 rfl rfl rfl (by decide)
  · exact (error_boundary_c2_amended envBadSink []).2.2.2 rfl rfl rfl rfl

/-- Python `str.replace(old, new)` on character lists, for a nonempty
pattern: scan left to right, replacing every non-overlapping occurrence. -/
def pyReplace (pat rep : List Char) : List Char → List Char
  | [] => []
  | c :: cs =>
    if h : pat.length ≠ 0 ∧ pat.isPrefixOf (c :: cs) = true then
      rep ++ pyReplace pat rep ((c :: cs).drop pat.length)
    else
      c :: pyReplace pat rep cs
termination_by l => l.length
decreasing_by
  · have h1 := h.1
    simp only [List.length_drop, List.length_cons]
    omega
  · simp only [List.length_cons]
    omega

/-- The default output path of `process_video` (lines 89–90):
`video_path.replace('.mp4', '_tracked.mp4')`. -/
def deriveOutputPath (videoPath : String) : String :=
  String.mk (pyReplace ".mp4".data "_tracked.mp4".data videoPath.data)

theorem pyReplace_nil (pat rep : List Char) : pyReplace pat rep [] = [] := by
  rw [pyReplace]

theorem pyReplace_cons_pos (pat rep : List Char) (c : Char) (cs : List Char)
    (h : pat.length ≠ 0 ∧ pat.isPrefixOf (c :: cs) = true) :
    pyReplace pat rep (c :: cs)
      = rep ++ pyReplace pat rep ((c :: cs).drop pat.length) := by
  rw [pyReplace]
  rw [dif_pos h]

theorem pyReplace_cons_neg (pat rep : List Char) (c : Char) (cs : List Char)
    (h : ¬(pat.length ≠ 0 ∧ pat.isPrefixOf (c :: cs) = true)) :
    pyReplace pat rep (c :: cs) = c :: pyReplace pat rep cs := by
  rw [pyReplace]
  rw [dif_neg h]

/-- If the pattern occurs nowhere in the string, `str.replace` returns the
string unchanged. -/
theorem pyReplace_no_occ (pat rep : List Char) :
    ∀ s : List Char, ¬ (pat <:+: s) → pyReplace pat rep s = s := by
  intro s
  induction s with
  | nil => intro _; exact pyReplace_nil pat rep
  | cons c cs ih =>
    intro hocc
    rw [pyReplace_cons_neg pat rep c cs (fun hh =>
      hocc (List.isPrefixOf_iff_prefix.mp hh.2).isInfix)]
    rw [ih (fun hi => hocc (hi.trans (List.suffix_cons c cs).isInfix))]

/-- If the only occurrence of the (nonempty) pattern is the final one,
`str.replace` replaces exactly that final occurrence. -/
theorem pyReplace_final (pat rep : List Char) (hne : pat.length ≠ 0) :
    ∀ stem : List Char,
      (∀ i, i < stem.length → pat.isPrefixOf ((stem ++ pat).drop i) = false) →
      pyReplace pat rep (stem ++ pat) = stem ++ rep := by
  intro stem
  induction stem with
  | nil =>
    intro _
    simp only [List.nil_append]
    cases hp : pat with
    | nil => simp [hp] at hne
    | cons c cs =>
      rw [pyReplace_cons_pos _ _ _ _
        ⟨by simp, List.isPrefixOf_iff_prefix.mpr (List.prefix_refl _)⟩]
      rw [List.drop_length, pyReplace_nil, List.append_nil]
  | cons a stem ih =>
    intro hcond
    have h0 := hcond 0 (by simp)
    simp only [List.drop_zero, List.cons_append] at h0
    rw [List.cons_append, pyReplace_cons_neg _ _ _ _ (fun hh => by
      rw [hh.2] at h0
      exact absurd h0 (by decide))]
    rw [ih (fun i hi => by
      have := hcond (i + 1) (by simpa using Nat.succ_lt_succ hi)
      simpa [List.cons_append] using this)]
    rw [List.cons_append]

/-- C3 counterexample: for the input path `video.avi` — which contains no
occurrence of `.mp4` — `process_video`'s derived default output path equals
the input path itself (so the annotated output would overwrite the input),
refuting "for every input path the derived output path differs from the
input path". -/
theorem output_path_c3_counterexample :
    deriveOutputPath "video.avi" = "video.avi" := by
  unfold deriveOutputPath
  rw [pyReplace_no_occ _ _ _ (by decide)]

/-- C3 as amended: the default output path is
`video_path.replace('.mp4', '_tracked.mp4')`.  For an input containing no
occurrence of `.mp4` the derived path equals the input (no suffix is
appended); for an input of the form `stem + '.mp4'` whose only occurrence
of `.mp4` is that final extension, the derived path is
`stem + '_tracked.mp4'` — the fixed suffix inserted before the extension,
the rest of the name preserved, and the result differs from the input. -/
theorem output_path_c3_amended (stem : List Char) :
    (¬ (".mp4".data <:+: stem) →
      deriveOutputPath (String.mk stem) = String.mk stem) ∧
    ((∀ i, i < stem.length →
        ".mp4".data.isPrefixOf ((stem ++ ".mp4".data).drop i) = false) →
      deriveOutputPath (String.mk (stem ++ ".mp4".data))
        = String.mk (stem ++ "_tracked.mp4".data) ∧
      String.mk (stem ++ "_tracked.mp4".data) ≠ String.mk (stem ++ ".mp4".data)) := by
  constructor
  · intro h
    unfold deriveOutputPath
    rw [pyReplace_no_occ _ _ _ h]
  · intro h
    constructor
    · unfold deriveOutputPath
      rw [pyReplace_final _ _ (by decide) stem h]
    · intro hcontra
      have hdata : stem ++ "_tracked.mp4".data = stem ++ ".mp4".data :=
        congrArg String.data hcontra
      have hlen := congrArg List.length hdata
      simp at hlen

theorem output_path_c3_amended_witness :
    deriveOutputPath (String.mk "xyz".data) = String.mk "xyz".data ∧
    deriveOutputPath (String.mk ("video".data ++ ".mp4".data))
      = String.mk ("video".data ++ "_tracked.mp4".data) :=
  ⟨(output_path_c3_amended "xyz".data).1 (by decide),
   ((output_path_c3_amended "video".data).2 (by decide)).1⟩

/-- The source properties read once at the start of `process_video`
(lines 81–83): `cap.get` returns doubles, modelled as rationals. -/
structure SourceProps where
  fps : ℚ
  width : ℚ
  height : ℚ
deriving DecidableEq, Repr

/-- Python `int()` on a number: truncation toward zero. -/
def pyInt (q : ℚ) : ℤ := if 0 ≤ q then ⌊q⌋ else -⌊-q⌋

/-- The parameters the output `cv2.VideoWriter` is opened with. -/
structure WriterConfig where
  fps : ℤ
  width : ℤ
  height : ℤ
deriving DecidableEq, Repr

/-- Lines 81–83 and 93 of `process_video`:
`fps = int(cap.get(cv2.CAP_PROP_FPS))` etc., then
`cv2.VideoWriter(output_path, fourcc, fps, (width, height))`. -/
def writerConfigOf (s : SourceProps) : WriterConfig :=
  { fps := pyInt s.fps, width := pyInt s.width, height := pyInt s.height }

/-- A source with the (exactly double-representable) frame rate 29.5. -/
def fractionalSrc : SourceProps := { fps := 59/2, width := 1920, height := 1080 }

/-- C6 counterexample: for a source whose frame rate is 29.5 — a value a
video container can carry and a double represents exactly — `process_video`
opens the writer at `int(29.5) = 29` frames per second, not at the source's
frame rate, refuting "the output video is written at the same frame rate as
the input source" for every input. -/
theorem writer_config_c6_counterexample :
    ((writerConfigOf fractionalSrc).fps : ℚ) ≠ fractionalSrc.fps := by
  have h : (writerConfigOf fractionalSrc).fps = 29 := by
    show pyInt (59/2) = 29
    rw [pyInt, if_pos (by norm_num), Int.floor_eq_iff]
    constructor
    · norm_num
    · norm_num
  rw [h]
  show (29 : ℚ) ≠ fractionalSrc.fps
  show (29 : ℚ) ≠ 59/2
  norm_num

/-- C6 as amended: the writer is always opened at the `int`-truncation of
the source properties; whenever the source frame rate, width and height are
(nonnegative) integral values — as widths and heights always are, and as
frame rates are for integral-fps videos — the output is written at exactly
the source's frame rate and resolution. -/
theorem writer_config_c6_amended (s : SourceProps) :
    writerConfigOf s
      = { fps := pyInt s.fps, width := pyInt s.width, height := pyInt s.height } ∧
    (∀ a b c : ℕ, s.fps = a → s.width = b → s.height = c →
      ((writerConfigOf s).fps : ℚ) = s.fps ∧
      ((writerConfigOf s).width : ℚ) = s.width ∧
      ((writerConfigOf s).height : ℚ) = s.height) := by
  refine ⟨rfl, ?_⟩
  intro a b c ha hb hc
  have hint : ∀ n : ℕ, (pyInt (n : ℚ) : ℚ) = (n : ℚ) := by
    intro n
    simp [pyInt]
  refine ⟨?_, ?_, ?_⟩
  · simp only [writerConfigOf, ha]
    exact hint a
  · simp only [writerConfigOf, hb]
    exact hint b
  · simp only [writerConfigOf, hc]
    exact hint c

theorem writer_config_c6_amended_witness :
    ((writerConfigOf { fps := 30, width := 1920, height := 1080 }).fps : ℚ) = 30 ∧
    ((writerConfigOf { fps := 30, width := 1920, height := 1080 }).width : ℚ) = 1920 ∧
    ((writerConfigOf { fps := 30, width := 1920, height := 1080 }).height : ℚ) = 1080 :=
  (writer_config_c6_amended { fps := 30, width := 1920, height := 1080 }).2
    30 1920 1080 (by norm_num) (by norm_num) (by norm_num)

/-- A store holding one caller-owned frame buffer at handle 0. -/
def stW : Store := { bufs := [(0, [])], next := 1 }

/-- A concrete tracked person detection. -/
def tdPerson : TrackedDetection :=
  { x1 := 0, y1 := 0, x2 := 10, y2 := 10, classId := 0, confidence := 1/2,
    trackId := 0 }

theorem annotator_preserves_input_frame_c9_witness :
    (0 : Nat) < stW.next ∧
    (drawAnnotations cTextSize stW 0 [tdPerson] []).1.read 0 = stW.read 0 :=
  ⟨by decide,
   annotator_preserves_input_frame_c9 cTextSize stW 0 [tdPerson] [] (by decide)⟩
